import Mathlib

/-!
Verification development for the Seasonal Demand Planning Engine of the
Medical repository.  The Python analytic modules (`Engine.py`,
`backend/utils/analyzer.py`, `backend/utils/analysis_engine.py`,
`backend/utils/forecast.py`) are shallowly embedded as executable Lean
definitions over lists; pandas tables become lists of records, pandas
missing values become `Option`, and external statistical libraries
(statsmodels SARIMAX, Prophet) become explicit function parameters.

Modelling conventions, applied throughout:
* Numeric Python float literals (`0.15`, `0.20`, `0.30`, `0.75`) are read
  as the exact rationals they denote; machine floating point is outside
  the scope of this embedding.
* `quantity` is integer valued, following the repository's data schema
  (the spec's data model declares `quantity` an integer; pandas stores the
  column as int64), while `unit_price` is an arbitrary rational.
* `pandas.sort_values` (default `kind="quicksort"`, which is NOT stable)
  guarantees only a permutation of the rows ordered by the key; this
  contract is captured by `SortValuesResult`.  The pipeline's embedded
  sort uses `List.insertionSort`, one conforming implementation; no
  theorem relies on its stability.  Sorted `groupby` keys are likewise
  produced with `List.insertionSort`.
* pandas missing numerics (`NaN`, and `NaT`-derived `NaN`) are modelled
  as `none`: `Series.quantile` skips them (returning `NaN` when nothing
  remains) and any `>=` comparison involving `NaN` is `False`.
* A calendar date is abstracted as an absolute day index (used by weekly
  resampling arithmetic; day 0 is a Monday) together with its calendar
  month (used by season assignment).  No claim relates the two views, so
  they are carried as independent fields instead of deriving one from the
  other through a full calendar.
-/

namespace Medical

/-- Python `int()` applied to a nonnegative number truncates toward zero,
which on nonnegative rationals is the floor.  We keep the general
truncation to mirror `astype(int)` faithfully. -/
def ratTrunc (q : ℚ) : ℤ :=
  if 0 ≤ q then ⌊q⌋ else ⌈q⌉

/-- `Series.round(2)`: round to two decimal places.  (numpy rounds exact
halves to even; Mathlib's `round` rounds halves up.  No property in this
development depends on the tie-breaking direction.) -/
def round2 (q : ℚ) : ℚ :=
  (round (q * 100) : ℤ) / 100

/-- Maximum of a list of rationals, `0` for the empty list (the sources
only apply `.max()` to non-empty columns). -/
def listMax (l : List ℚ) : ℚ :=
  l.foldr max 0

/-- Maximum of a list of naturals, `0` for the empty list. -/
def natMax (l : List ℕ) : ℕ :=
  l.foldr max 0

/-- Minimum of a non-empty list of naturals, `0` for the empty list. -/
def natMin (l : List ℕ) : ℕ :=
  match l with
  | [] => 0
  | x :: xs => xs.foldr min x

/-- A calendar date: absolute day index plus calendar month (see the
module docstring). -/
structure Date where
  days : ℕ
  month : ℕ
deriving DecidableEq, Repr

/-- A raw table cell as seen by the sanitizer: missing (`NaN`/`None`),
present but failing type coercion (`pd.to_datetime` / `pd.to_numeric`
with `errors="coerce"` turn such cells into `NaT`/`NaN`), or a value. -/
inductive RawField (α : Type) where
  | missing
  | unreadable
  | val (a : α)
deriving DecidableEq, Repr

namespace RawField

/-- Whether the cell is null before any coercion (what `dropna` sees). -/
def isMissing : RawField α → Bool
  | .missing => true
  | _ => false

/-- Result of `errors="coerce"` coercion: missing and uncoercible cells
both become null. -/
def coerce : RawField α → Option α
  | .val a => some a
  | _ => none

end RawField

/-- A raw transaction row restricted to the columns the cleaning pipeline
reads.  Presentation-only columns (brand, manufacturer, supplier, dosage
form, strength, category, prescription flag, time) are omitted: the
sanitizer only passes them through. -/
structure RawRow where
  date : RawField Date
  invoice_id : String
  medicine_name : Option String
  generic_name : Option String
  quantity : RawField ℤ
  unit_price : RawField ℚ
deriving DecidableEq, Repr

/-- A sanitized transaction row (`clean_data` output).  `date` is still
optional: `pd.to_datetime(..., errors="coerce")` runs after the
critical-column `dropna`, and the later `dropna` only covers `quantity`
and `unit_price`, so an unparseable date survives as `NaT`. -/
structure CleanRow where
  date : Option Date
  invoice_id : String
  medicine_name_clean : String
  generic_name_clean : String
  quantity : ℤ
  unit_price : ℚ
  total_sales : ℚ
deriving DecidableEq, Repr

/-- Split a character list into maximal runs separated by whitespace
(empty runs appear between adjacent separators). -/
def wordsOf : List Char → List (List Char)
  | [] => []
  | c :: cs =>
    let rest := wordsOf cs
    if c.isWhitespace then [] :: rest
    else
      match rest with
      | [] => [[c]]
      | w :: ws => (c :: w) :: ws

/-- Join words with single spaces. -/
def joinWords : List (List Char) → List Char
  | [] => []
  | [w] => w
  | w :: ws => w ++ ' ' :: joinWords ws

/-- `.str.strip().str.upper().str.replace(r"\s+", " ", regex=True)`:
trim, upper-case, collapse internal whitespace runs to single spaces. -/
def normalizeKey (s : String) : String :=
  ⟨(joinWords ((wordsOf s.data).filter (· ≠ []))).map Char.toUpper⟩

/-- `clean_data` acting on one row (`Engine.py`, STEP 2.1).  In source
order: (1) `dropna` on the critical columns `date`, `medicine_name`,
`quantity`, `unit_price`; (2) coercion of `date` (`errors="coerce"`,
failures become `NaT` and are NOT re-checked), `quantity` and
`unit_price` (failures become `NaN`); (3) `dropna` on `quantity`,
`unit_price` only; (4) keep only `quantity > 0` and `unit_price > 0`;
(5) name normalization (`generic_name` is defaulted to `"UNKNOWN"`) and
`total_sales = quantity * unit_price`. -/
def cleanRow (r : RawRow) : Option CleanRow :=
  if r.date.isMissing || r.medicine_name.isNone ||
      r.quantity.isMissing || r.unit_price.isMissing then
    none
  else
    match r.medicine_name, r.quantity.coerce, r.unit_price.coerce with
    | some name, some q, some p =>
      if 0 < q ∧ 0 < p then
        some { date := r.date.coerce
               invoice_id := r.invoice_id
               medicine_name_clean := normalizeKey name
               generic_name_clean := normalizeKey (r.generic_name.getD "UNKNOWN")
               quantity := q
               unit_price := p
               total_sales := (q : ℚ) * p }
      else none
    | _, _, _ => none

/-- `clean_data` over the whole table. -/
def clean_data (rows : List RawRow) : List CleanRow :=
  rows.filterMap cleanRow

/-- The three seasons of the fixed Indian-climate calendar. -/
inductive Season where
  | Summer
  | Monsoon
  | Winter
deriving DecidableEq, Repr

/-- `get_season` (`Engine.py`, STEP 2.2): months 2-5 are Summer, 6-9
Monsoon, everything else (including a `NaN` month from a `NaT` date,
which fails both membership tests) Winter. -/
def get_season (month : ℕ) : Season :=
  if month = 2 ∨ month = 3 ∨ month = 4 ∨ month = 5 then .Summer
  else if month = 6 ∨ month = 7 ∨ month = 8 ∨ month = 9 then .Monsoon
  else .Winter

/-- A feature-engineered row: a sanitized row plus its `Season` label. -/
structure FeatRow where
  date : Option Date
  invoice_id : String
  medicine_name_clean : String
  quantity : ℤ
  unit_price : ℚ
  total_sales : ℚ
  season : Season
deriving DecidableEq, Repr

/-- `create_features` on one row: attach the season derived from the
date's month (a `NaT` date has `NaN` month and lands in Winter). -/
def featurize (c : CleanRow) : FeatRow :=
  { date := c.date
    invoice_id := c.invoice_id
    medicine_name_clean := c.medicine_name_clean
    quantity := c.quantity
    unit_price := c.unit_price
    total_sales := c.total_sales
    season := match c.date with
      | some d => get_season d.month
      | none => .Winter }

/-- `create_features` over the whole table. -/
def create_features (rows : List CleanRow) : List FeatRow :=
  rows.map featurize

/-! ### Seasonal aggregation and heuristic recommendations
(`Engine.py`, `get_heuristic_recommendations`, STEP 4.1) -/

/-- One row of the `groupby("medicine_name_clean").agg(...)` result.
The source immediately renames the aggregated `quantity` sum to
`last_season_sales`; we keep the pre-rename name `total_quantity`
(the spec's `SeasonalAggregate`). -/
structure Aggregate where
  medicine_name : String
  total_quantity : ℤ
  total_revenue : ℚ
  unique_orders : ℕ
  avg_unit_price : ℚ
deriving DecidableEq, Repr

/-- Group keys of a pandas `groupby` with the default `sort=True`:
the distinct values, in ascending order. -/
def keysOf (rows : List FeatRow) : List String :=
  List.insertionSort (· ≤ ·) (rows.map (·.medicine_name_clean)).dedup

/-- The rows belonging to one group key. -/
def rowsFor (rows : List FeatRow) (k : String) : List FeatRow :=
  rows.filter (·.medicine_name_clean = k)

/-- The aggregate of one group: `quantity: sum`, `total_sales: sum`,
`invoice_id: nunique`, `unit_price: mean`. -/
def aggregateFor (rows : List FeatRow) (k : String) : Aggregate :=
  let g := rowsFor rows k
  { medicine_name := k
    total_quantity := (g.map (·.quantity)).sum
    total_revenue := (g.map (·.total_sales)).sum
    unique_orders := ((g.map (·.invoice_id)).dedup).length
    avg_unit_price := (g.map (·.unit_price)).sum / g.length }

/-- The full `groupby`-aggregate table, keys in ascending order. -/
def aggregate_by_medicine (rows : List FeatRow) : List Aggregate :=
  (keysOf rows).map (aggregateFor rows)

/-- The ordering key of
`sort_values("last_season_sales", ascending=False)`: descending by
aggregated sales. -/
def salesDesc (a b : Aggregate) : Prop :=
  b.total_quantity ≤ a.total_quantity

instance : DecidableRel salesDesc := fun a b =>
  inferInstanceAs (Decidable (b.total_quantity ≤ a.total_quantity))

instance : IsTotal Aggregate salesDesc :=
  ⟨fun a b => le_total b.total_quantity a.total_quantity⟩

instance : IsTrans Aggregate salesDesc :=
  ⟨fun _ _ _ h₁ h₂ => le_trans h₂ h₁⟩

/-- What `sort_values` with the default `kind="quicksort"` guarantees
about its output: a permutation of the input, ordered descending by the
key.  The default numpy sort is not stable, so NO tie-order clause is
part of this contract. -/
def SortValuesResult (l l' : List Aggregate) : Prop :=
  l'.Perm l ∧ l'.Pairwise salesDesc

/-- Sorting step of the recommendation engine: one implementation
conforming to `SortValuesResult` (the embedding uses an insertion sort;
the source's quicksort may order ties differently, and no theorem below
relies on which conforming order is produced). -/
def sortBySales (aggs : List Aggregate) : List Aggregate :=
  List.insertionSort salesDesc aggs

/-- One produced recommendation (spec data model `Recommendation`).
`daily_avg_sales` is optional: when the season has no parseable dates,
`days_in_season` is `NaN` and the whole column is `NaN` (`none`). -/
structure Recommendation where
  rank : ℕ
  medicine_name : String
  last_season_sales : ℤ
  suggested_stock_quantity : ℤ
  daily_avg_sales : Option ℚ
  total_revenue : ℚ
  avg_unit_price : ℚ
  unique_orders : ℕ
  is_fast_mover : Bool
deriving DecidableEq, Repr

/-- `(last_season_sales * (1 + buffer)).astype(int)`. -/
def suggestedStock (sales : ℤ) (buffer : ℚ) : ℤ :=
  ratTrunc ((sales : ℚ) * (1 + buffer))

/-- Default safety-stock buffer (`buffer: float = 0.15`). -/
def DEFAULT_BUFFER : ℚ := 15 / 100

/-- `days_in_season = (season_data["date"].max() - season_data["date"].min()).days`,
over the non-null dates (pandas `max`/`min` skip `NaT`), with the
single-day fallback of 90.  When the season has NO non-null dates,
`max`/`min` are `NaT`, `(NaT - NaT).days` is `NaN`, and the `== 0`
fallback does not fire: the result is `NaN` (`none`). -/
def daysInSeason (rows : List FeatRow) : Option ℕ :=
  let ds := (rows.filterMap (·.date)).map (·.days)
  if ds.isEmpty then none
  else if natMax ds - natMin ds = 0 then some 90
  else some (natMax ds - natMin ds)

/-- `Series.quantile(0.75)` with the default linear interpolation: with
the `n` values sorted ascending as `v 0, ..., v (n-1)`, the quantile sits
at position `h = 0.75 * (n - 1)` and is `v ⌊h⌋ + (h - ⌊h⌋) * (v (⌊h⌋+1) - v ⌊h⌋)`. -/
def quantile75 (xs : List ℚ) : ℚ :=
  let sorted := List.insertionSort (· ≤ ·) xs
  let h : ℚ := (3 / 4) * ((xs.length : ℚ) - 1)
  let i := ⌊h⌋.toNat
  let lo := sorted.getD i 0
  let hi := sorted.getD (i + 1) lo
  lo + (h - i) * (hi - lo)

/-- Build the ranked `Recommendation` rows from the sorted aggregates:
`recommendations["rank"] = range(1, len(recommendations) + 1)` assigns
ranks positionally.  (`suggested_stock_quantity` and `daily_avg_sales`
are per-row columns; the source computes them before the sort, which
yields the same rows.)  `is_fast_mover` is patched in afterwards. -/
def assignRanks (buffer : ℚ) (days : Option ℕ) : ℕ → List Aggregate → List Recommendation
  | _, [] => []
  | i, a :: as =>
    { rank := i
      medicine_name := a.medicine_name
      last_season_sales := a.total_quantity
      suggested_stock_quantity := suggestedStock a.total_quantity buffer
      daily_avg_sales := days.map fun d => round2 ((a.total_quantity : ℚ) / d)
      total_revenue := a.total_revenue
      avg_unit_price := a.avg_unit_price
      unique_orders := a.unique_orders
      is_fast_mover := false } :: assignRanks buffer days (i + 1) as

/-- `daily_avg_sales.quantile(0.75)`: pandas skips `NaN` values and
returns `NaN` (`none`) when none remain. -/
def fastMoverThreshold (recs : List Recommendation) : Option ℚ :=
  let vals := (recs.map (·.daily_avg_sales)).reduceOption
  if vals.isEmpty then none else some (quantile75 vals)

/-- `daily_avg_sales >= fast_mover_threshold` with float `NaN`
semantics: a comparison involving `NaN` on either side is `False`. -/
def fastMoverFlag (thr daily : Option ℚ) : Bool :=
  match thr, daily with
  | some t, some v => decide (t ≤ v)
  | _, _ => false

/-- `is_fast_mover = daily_avg_sales >= daily_avg_sales.quantile(0.75)`. -/
def markFastMovers (recs : List Recommendation) : List Recommendation :=
  recs.map fun r =>
    { r with is_fast_mover := fastMoverFlag (fastMoverThreshold recs) r.daily_avg_sales }

/-- `get_heuristic_recommendations(df, target_season, buffer=0.15)`:
filter to the season, return the empty table if no rows, otherwise
aggregate by medicine, sort descending by sales, rank densely from 1,
and flag fast movers. -/
def get_heuristic_recommendations (df : List FeatRow) (target : Season)
    (buffer : ℚ) : List Recommendation :=
  let season_data := df.filter (·.season = target)
  if season_data.isEmpty then []
  else
    markFastMovers
      (assignRanks buffer (daysInSeason season_data) 1
        (sortBySales (aggregate_by_medicine season_data)))

/-! ### Priority categorization
(`Engine.py`, `categorize_medicines_by_priority`; the same slicing code
is in `analyzer.py`, `RecommendationEngine.categorize_by_priority`) -/

/-- The four priority tiers.  (`analysis_engine.py`'s score-based variant
uses the lowercase strings `"critical"`, `"high"`, `"medium"`, `"low"`
for the same four tiers.) -/
inductive Priority where
  | CRITICAL
  | HIGH
  | MEDIUM
  | LOW
deriving DecidableEq, Repr

/-- `max(int(total_medicines * frac), 1)`. -/
def tierCount (n : ℕ) (frac : ℚ) : ℕ :=
  max (ratTrunc ((n : ℚ) * frac)).toNat 1

/-- The four tier tables returned by `categorize_medicines_by_priority`. -/
structure Categorized (α : Type) where
  critical : List α
  high : List α
  medium : List α
  low : List α
deriving DecidableEq, Repr

/-- `categorize_medicines_by_priority`: an empty input returns the empty
dict (`none` here); otherwise CRITICAL is `head(a)`, HIGH is
`iloc[a : a+b]`, MEDIUM is `iloc[a+b : a+b+c]`, LOW is `iloc[a+b+c :]`
with `a = max(int(n*0.20), 1)` and `b = c = max(int(n*0.30), 1)`
(pandas slicing clamps to the table length). -/
def categorize_medicines_by_priority (recs : List α) : Option (Categorized α) :=
  if recs.isEmpty then none
  else
    let n := recs.length
    let a := tierCount n (20 / 100)
    let b := tierCount n (30 / 100)
    let c := tierCount n (30 / 100)
    some { critical := recs.take a
           high := (recs.drop a).take b
           medium := (recs.drop (a + b)).take c
           low := recs.drop (a + b + c) }

/-- Which tier the named medicine landed in. -/
def tierOf (cat : Categorized Recommendation) (name : String) : Option Priority :=
  if (cat.critical.filter (·.medicine_name = name)) ≠ [] then some .CRITICAL
  else if (cat.high.filter (·.medicine_name = name)) ≠ [] then some .HIGH
  else if (cat.medium.filter (·.medicine_name = name)) ≠ [] then some .MEDIUM
  else if (cat.low.filter (·.medicine_name = name)) ≠ [] then some .LOW
  else none

/-! ### The score-based priority variant
(`analysis_engine.py`, `SeasonalAnalysisEngine.get_enhanced_medicines`) -/

/-- Per-medicine input of the score-based classifier: aggregated
quantity sold and revenue. -/
structure EnhancedMedicine where
  medicine_name : String
  quantity_sold : ℚ
  total_revenue : ℚ
deriving DecidableEq, Repr

/-- `priority_score = total_revenue / max_revenue * 0.6 + quantity_sold / max_quantity * 0.4`. -/
def priority_score (maxRev maxQty : ℚ) (m : EnhancedMedicine) : ℚ :=
  m.total_revenue / maxRev * (6 / 10) + m.quantity_sold / maxQty * (4 / 10)

/-- `get_priority(score)`: thresholds 0.8 / 0.6 / 0.4. -/
def get_priority (score : ℚ) : Priority :=
  if 8 / 10 ≤ score then .CRITICAL
  else if 6 / 10 ≤ score then .HIGH
  else if 4 / 10 ≤ score then .MEDIUM
  else .LOW

/-- The score-based tier assignment over a medicine table. -/
def enhanced_priorities (ms : List EnhancedMedicine) : List (String × Priority) :=
  let maxRev := listMax (ms.map (·.total_revenue))
  let maxQty := listMax (ms.map (·.quantity_sold))
  ms.map fun m => (m.medicine_name, get_priority (priority_score maxRev maxQty m))

/-! ### Forecasting orchestrator
(`Engine.py`, `get_timeseries_forecast_sarima`; `backend/utils/forecast.py`,
`ForecastingEngine`).  The external statistical libraries (statsmodels
SARIMAX, Prophet) are modelled as function parameters returning
`Except String _`: a raised exception becomes `.error msg`, which the
embedded code must catch, exactly as the source's `try/except` does. -/

/-- `resample("W-Mon")` bucket of an absolute day index: weeks run
Tuesday through Monday (day 0 is a Monday). -/
def weekBucketOfDay (d : ℕ) : ℕ := (d + 6) / 7

/-- Weekly resampling of daily `(day, quantity)` points:
`set_index("date")["quantity"].resample("W-Mon").sum()` produces one
bucket per week from the first to the last observation inclusive
(intermediate empty weeks get sum 0). -/
def weeklySeriesOfDays (pts : List (ℕ × ℤ)) : List (ℕ × ℤ) :=
  match pts with
  | [] => []
  | _ =>
    let bs := pts.map fun p => weekBucketOfDay p.1
    let lo := natMin bs
    let hi := natMax bs
    (List.range' lo (hi - lo + 1)).map fun w =>
      (w, ((pts.filter fun p => weekBucketOfDay p.1 = w).map (·.2)).sum)

/-- SARIMAX fit output: point forecast with confidence bounds. -/
structure SarimaFit where
  predicted_mean : List ℚ
  lower : List ℚ
  upper : List ℚ
deriving DecidableEq, Repr

/-- The external SARIMAX fit-and-forecast call: weekly series and horizon
in, forecast out, or a raised exception (`.error`). -/
def SarimaFitFn : Type :=
  List (ℕ × ℤ) → ℕ → Except String SarimaFit

/-- Outcome of `Engine.py`'s `get_timeseries_forecast_sarima`.  The
source returns `None` in the first, second and fourth cases and a
forecast table in the third; the branches are distinguished here the way
the source distinguishes them in its printed diagnostics. -/
inductive SarimaOutcome where
  | noData
  | insufficientData (weeks : ℕ)
  | fitted (f : SarimaFit)
  | fitError (msg : String)
deriving DecidableEq, Repr

/-- `get_timeseries_forecast_sarima(df, medicine_name, forecast_weeks=12)`:
filter to the medicine, bail out on no rows, resample weekly, gate on
fewer than 24 weekly observations, otherwise attempt the fit, catching
any exception. -/
def get_timeseries_forecast_sarima (fit : SarimaFitFn) (df : List FeatRow)
    (medicine : String) (forecast_weeks : ℕ) : SarimaOutcome :=
  let med := df.filter (·.medicine_name_clean = medicine)
  if med.isEmpty then .noData
  else
    let ts := weeklySeriesOfDays
      (med.filterMap fun r => r.date.map fun d => (d.days, r.quantity))
    if ts.length < 24 then .insufficientData ts.length
    else
      match fit ts forecast_weeks with
      | .ok f => .fitted f
      | .error e => .fitError e

/-- One prepared backend time-series row (`date`, `quantity`). -/
structure SalesRow where
  day : ℕ
  quantity : ℤ
deriving DecidableEq, Repr

/-- `ForecastingEngine.prepare_time_series_data`: empty input gives the
empty frame; otherwise group by date summing quantities, dates in
ascending order. -/
def prepare_time_series_data (sales : List (ℕ × ℤ)) : List SalesRow :=
  if sales.isEmpty then []
  else
    (List.insertionSort (· ≤ ·) (sales.map (·.1)).dedup).map fun d =>
      ⟨d, ((sales.filter (·.1 = d)).map (·.2)).sum⟩

/-- Result dict of `generate_sarima_forecast` (historical columns and
date formatting omitted). -/
structure SarimaResult where
  success : Bool
  error : Option String
  forecast_values : List ℚ
  lower_bound : List ℚ
  upper_bound : List ℚ
deriving DecidableEq, Repr

/-- The failure dict: `success: False` with an error message and empty
data columns. -/
def sarimaFailure (msg : String) : SarimaResult :=
  ⟨false, some msg, [], [], []⟩

/-- `ForecastingEngine.generate_sarima_forecast(df, forecast_weeks=12)`:
pre-gates on library availability, an empty frame, and `len(df) < 24`
(a count of daily rows, despite the message talking about weeks); then
resamples weekly and gates again on `len(weekly) < 24`; then fits,
catching any exception into a failure dict carrying the message. -/
def generate_sarima_forecast (available : Bool) (fit : SarimaFitFn)
    (df : List SalesRow) (forecast_weeks : ℕ) : SarimaResult :=
  if !available || df.isEmpty || df.length < 24 then
    sarimaFailure "Insufficient data for SARIMA forecast (minimum 24 weeks required)"
  else
    let weekly := weeklySeriesOfDays (df.map fun r => (r.day, r.quantity))
    if weekly.length < 24 then
      sarimaFailure
        ("Insufficient weekly data for SARIMA forecast (" ++
          toString weekly.length ++ " weeks)")
    else
      match fit weekly forecast_weeks with
      | .ok f => ⟨true, none, f.predicted_mean, f.lower, f.upper⟩
      | .error e => sarimaFailure ("SARIMA forecast failed: " ++ e)

/-- Prophet fit output, split as the source splits it: in-sample `yhat`
and the future portion with its interval. -/
structure ProphetFit where
  yhat_hist : List ℚ
  yhat_future : List ℚ
  lower_future : List ℚ
  upper_future : List ℚ
deriving DecidableEq, Repr

/-- The external Prophet fit-and-predict call: daily frame and future
horizon in days in, fit out, or a raised exception. -/
def ProphetFitFn : Type :=
  List SalesRow → ℕ → Except String ProphetFit

/-- Result dict of `generate_prophet_forecast` (date formatting and the
seasonality column omitted).  `lower`/`upper` are `None` over the
historical prefix, as in the source's combined lists. -/
structure ProphetResult where
  success : Bool
  error : Option String
  forecast : List ℚ
  lower : List (Option ℚ)
  upper : List (Option ℚ)
deriving DecidableEq, Repr

/-- The Prophet failure dict. -/
def prophetFailure (msg : String) : ProphetResult :=
  ⟨false, some msg, [], [], []⟩

/-- `ForecastingEngine.generate_prophet_forecast(df, forecast_months=3)`:
gates on library availability, an empty frame, and `len(df) < 30`; then
fits over a future horizon of `forecast_months * 30` days, combining
historical and future rows, catching any exception into a failure dict
carrying the message. -/
def generate_prophet_forecast (available : Bool) (fit : ProphetFitFn)
    (df : List SalesRow) (forecast_months : ℕ) : ProphetResult :=
  if !available || df.isEmpty || df.length < 30 then
    prophetFailure "Insufficient data for Prophet forecast (minimum 30 days required)"
  else
    match fit df (forecast_months * 30) with
    | .ok f =>
        { success := true
          error := none
          forecast := f.yhat_hist ++ f.yhat_future
          lower := List.replicate f.yhat_hist.length none ++ f.lower_future.map some
          upper := List.replicate f.yhat_hist.length none ++ f.upper_future.map some }
    | .error e => prophetFailure ("Prophet forecast failed: " ++ e)

/-- Combined per-medicine result of `process_medicine_forecasts`. -/
structure MedicineForecasts where
  total_quantity : ℤ
  sarima_forecast : SarimaResult
  prophet_forecast : ProphetResult
deriving DecidableEq, Repr

/-- `ForecastingEngine.process_medicine_forecasts`: prepare the series;
if it is empty both model slots report `"No sales data available"`;
otherwise both models are attempted, each with its own defaults
(12 weeks, 3 months). -/
def process_medicine_forecasts (available : Bool) (sfit : SarimaFitFn)
    (pfit : ProphetFitFn) (sales : List (ℕ × ℤ)) : MedicineForecasts :=
  let df := prepare_time_series_data sales
  if df.isEmpty then
    ⟨0, sarimaFailure "No sales data available",
      prophetFailure "No sales data available"⟩
  else
    ⟨(df.map (·.quantity)).sum,
      generate_sarima_forecast available sfit df 12,
      generate_prophet_forecast available pfit df 3⟩

/-! ### Concrete data used by witnesses and counterexamples -/

/-- First date of the spec's worked example (2023-03-01; day 0 of the
embedding's clock, month 3). -/
def dPara1 : Date := ⟨0, 3⟩

/-- Second date of the spec's worked example (2023-03-15, fourteen days
later). -/
def dPara2 : Date := ⟨14, 3⟩

/-- The spec's worked example: PARA 500, qty 10 at price 5. -/
def rawPara1 : RawRow := ⟨.val dPara1, "I1", some "Para 500", none, .val 10, .val 5⟩

/-- The spec's worked example: the same medicine under a differently
spaced and cased name, qty 20 at price 5. -/
def rawPara2 : RawRow := ⟨.val dPara2, "I2", some " para  500 ", some "Paracetamol", .val 20, .val 5⟩

/-- A row whose date string fails `pd.to_datetime` coercion. -/
def rawBadDate : RawRow := ⟨.unreadable, "I3", some "X", none, .val 5, .val 2⟩

/-- A row with `quantity = -5` (spec: must be dropped). -/
def rawNegQty : RawRow := ⟨.val dPara1, "I4", some "X", none, .val (-5), .val 2⟩

/-- A row with `unit_price = 0` (spec: must be dropped). -/
def rawZeroPrice : RawRow := ⟨.val dPara1, "I5", some "X", none, .val 5, .val 0⟩

/-- The worked example's feature-engineered table. -/
def dfPara : List FeatRow := create_features (clean_data [rawPara1, rawPara2])

/-- The single recommendation the pipeline produces from `dfPara` for
Summer with the default buffer. -/
def recPara : Recommendation := ⟨1, "PARA 500", 30, 34, some (107 / 50), 150, 5, 2, true⟩

/-- A generic recommendation row for slicing examples. -/
def sampleRec (i : ℕ) : Recommendation :=
  ⟨i, "M" ++ toString i, i, i, some i, i, i, i, false⟩

/-- Rank-sliced input of the divergence example: the bigger medicine
(100 units, revenue 100). -/
def recC9A : Recommendation := ⟨1, "AMOXICILLIN", 100, 115, some 1, 100, 1, 1, false⟩

/-- Rank-sliced input of the divergence example: the smaller medicine
(10 units, revenue 10). -/
def recC9B : Recommendation := ⟨2, "BENADRYL", 10, 11, some 1, 10, 1, 1, false⟩

/-- Two aggregates tied at 5 units sold, emitted A before B. -/
def aggTieA : Aggregate := ⟨"A", 5, 1, 1, 1⟩

/-- The second of the tied aggregates. -/
def aggTieB : Aggregate := ⟨"B", 5, 2, 1, 1⟩

/-- A season reachable through the sanitizer whose every retained row
has an unparseable (null) date: the single surviving row of
`rawBadDate` lands in Winter with `date = none`. -/
def dfNaT : List FeatRow := create_features (clean_data [rawBadDate])

/-- The same two medicines as seen by the score-based classifier. -/
def enhC9 : List EnhancedMedicine :=
  [⟨"AMOXICILLIN", 100, 100⟩, ⟨"BENADRYL", 10, 10⟩]

/-- A transaction for medicine X in week `i` (one unit on the Monday of
week `i`). -/
def mkWeekRow (i : ℕ) : FeatRow :=
  ⟨some ⟨7 * i, 1⟩, "I", "X", 1, 1, 1, .Winter⟩

/-- 23 weekly observations for medicine X. -/
def df23 : List FeatRow := (List.range 23).map mkWeekRow

/-- 24 weekly observations for medicine X. -/
def df24 : List FeatRow := (List.range 24).map mkWeekRow

/-- A fit stub that always succeeds. -/
def fitOk : SarimaFitFn := fun _ _ => .ok ⟨[1], [0], [2]⟩

/-- Two daily rows 30 weeks apart: a weekly series of 31 observations
built from only 2 input rows. -/
def sparseSales : List SalesRow := [⟨0, 3⟩, ⟨210, 4⟩]

/-- A SARIMAX stub that raises. -/
def errSarima : SarimaFitFn := fun _ _ => .error "numerical blowup"

/-- A Prophet stub that raises. -/
def errProphet : ProphetFitFn := fun _ _ => .error "singular matrix"

/-- 30 daily observations, one per week, for the orchestrator witness. -/
def sales30 : List (ℕ × ℤ) := (List.range 30).map fun i => (7 * i, 1)

/-! ## Theorems -/

/-- `take`/`drop` slicing at cut points `a`, `a+b`, `a+b+c` reassembles
the whole list, whatever the cut points are. -/
theorem take_drop_partition (l : List α) (a b c : ℕ) :
    l.take a ++ ((l.drop a).take b ++ ((l.drop (a + b)).take c ++ l.drop (a + b + c))) = l := by
  have h2 : l.drop (a + b + c) = (l.drop (a + b)).drop c := by
    rw [List.drop_drop]
  have h1 : l.drop (a + b) = (l.drop a).drop b := by
    rw [List.drop_drop]
  rw [h2, List.take_append_drop, h1, List.take_append_drop, List.take_append_drop]

/-- The embedded tier count agrees with natural-number arithmetic:
`max(int(n * (p/100)), 1) = max (n * p / 100) 1`. -/
theorem tierCount_frac (n p : ℕ) (q : ℚ) (hq : q = (p : ℚ) / 100) :
    tierCount n q = max (n * p / 100) 1 := by
  subst hq
  unfold tierCount ratTrunc
  rw [if_pos (by positivity)]
  have hcast : (n : ℚ) * ((p : ℚ) / 100) = ((n * p : ℕ) : ℚ) / ((100 : ℕ) : ℚ) := by
    push_cast
    ring
  rw [hcast, Int.floor_toNat, Nat.floor_div_nat, Nat.floor_natCast]

/-- On a non-empty table, `categorize_medicines_by_priority` returns the
four contiguous slices. -/
theorem categorize_eq (recs : List α) (h : recs ≠ []) :
    categorize_medicines_by_priority recs =
      some { critical := recs.take (tierCount recs.length (20 / 100))
             high := (recs.drop (tierCount recs.length (20 / 100))).take
               (tierCount recs.length (30 / 100))
             medium := (recs.drop (tierCount recs.length (20 / 100) +
               tierCount recs.length (30 / 100))).take (tierCount recs.length (30 / 100))
             low := recs.drop (tierCount recs.length (20 / 100) +
               tierCount recs.length (30 / 100) + tierCount recs.length (30 / 100)) } := by
  unfold categorize_medicines_by_priority
  rw [if_neg (by simpa [List.isEmpty_iff] using h)]

/-- C1: for every non-empty recommendation set, the four priority tiers
are a true partition of the rank-ordered list: concatenating CRITICAL,
HIGH, MEDIUM, LOW in order gives back exactly the input list (so the
tiers are contiguous, non-overlapping slices and every recommendation
lands in exactly one tier), and the four tier sizes sum to the total. -/
theorem priority_tiers_partition (recs : List Recommendation)
    (cat : Categorized Recommendation)
    (hcat : categorize_medicines_by_priority recs = some cat) :
    cat.critical ++ cat.high ++ cat.medium ++ cat.low = recs ∧
    cat.critical.length + cat.high.length + cat.medium.length + cat.low.length
      = recs.length := by
  have hne : recs ≠ [] := by
    intro h
    subst h
    simp [categorize_medicines_by_priority] at hcat
  rw [categorize_eq recs hne] at hcat
  have hx := Option.some.inj hcat
  subst hx
  dsimp only
  have hp := take_drop_partition recs (tierCount recs.length (20 / 100))
    (tierCount recs.length (30 / 100)) (tierCount recs.length (30 / 100))
  refine ⟨by rw [List.append_assoc, List.append_assoc]; exact hp, ?_⟩
  have hlen := congrArg List.length hp
  simp only [List.length_append] at hlen
  omega

/-- C1 witness: a two-element set splits as CRITICAL `[r1]`, HIGH `[r2]`,
MEDIUM `[]`, LOW `[]`, which concatenates back to the input and whose
sizes sum to 2. -/
theorem priority_tiers_partition_witness :
    let cat : Categorized Recommendation := ⟨[sampleRec 1], [sampleRec 2], [], []⟩
    cat.critical ++ cat.high ++ cat.medium ++ cat.low = [sampleRec 1, sampleRec 2] ∧
    cat.critical.length + cat.high.length + cat.medium.length + cat.low.length = 2 :=
  priority_tiers_partition [sampleRec 1, sampleRec 2] _ (by with_unfolding_all decide)

/-- C2 counterexample: a recommendation set with exactly 1 medicine does
NOT produce four tiers of at least 1 member each; the slices clamp at
the table length, so CRITICAL gets the single row and HIGH, MEDIUM and
LOW are all empty. -/
theorem one_medicine_tiers_cex :
    (categorize_medicines_by_priority [sampleRec 1]).map
        (fun c => (c.critical.length, c.high.length, c.medium.length, c.low.length))
      = some (1, 0, 0, 0) := by
  with_unfolding_all decide

/-- C2 amended: each tier's count parameter is `max(int(n*frac), 1) ≥ 1`
and CRITICAL is always non-empty, but a tier whose slice starts at or
beyond the end of the table is empty; all four tiers are non-empty
whenever the set has at least 4 recommendations (while sets of size 1-3
leave the trailing tiers empty). -/
theorem priority_tiers_nonempty (recs : List Recommendation)
    (cat : Categorized Recommendation)
    (hcat : categorize_medicines_by_priority recs = some cat) :
    cat.critical ≠ [] ∧
    (4 ≤ recs.length → cat.high ≠ [] ∧ cat.medium ≠ [] ∧ cat.low ≠ []) := by
  have hne : recs ≠ [] := by
    intro h
    subst h
    simp [categorize_medicines_by_priority] at hcat
  rw [categorize_eq recs hne] at hcat
  have hx := Option.some.inj hcat
  subst hx
  dsimp only
  have hnpos : 0 < recs.length := List.length_pos.mpr hne
  have h20 : tierCount recs.length (20 / 100) = max (recs.length * 20 / 100) 1 :=
    tierCount_frac recs.length 20 _ (by norm_num)
  have h30 : tierCount recs.length (30 / 100) = max (recs.length * 30 / 100) 1 :=
    tierCount_frac recs.length 30 _ (by norm_num)
  refine ⟨?_, fun h4 => ⟨?_, ?_, ?_⟩⟩
  · refine List.length_pos.mp ?_
    rw [List.length_take, h20]
    omega
  · refine List.length_pos.mp ?_
    rw [List.length_take, List.length_drop, h20, h30]
    omega
  · refine List.length_pos.mp ?_
    rw [List.length_take, List.length_drop, h20, h30]
    omega
  · refine List.length_pos.mp ?_
    rw [List.length_drop, h20, h30]
    omega

/-- C2 amended witness: with 4 recommendations every tier is non-empty. -/
theorem priority_tiers_nonempty_witness :
    let cat : Categorized Recommendation :=
      ⟨[sampleRec 1], [sampleRec 2], [sampleRec 3], [sampleRec 4]⟩
    cat.critical ≠ [] ∧
    (4 ≤ ([sampleRec 1, sampleRec 2, sampleRec 3, sampleRec 4] : List Recommendation).length →
      cat.high ≠ [] ∧ cat.medium ≠ [] ∧ cat.low ≠ []) :=
  priority_tiers_nonempty [sampleRec 1, sampleRec 2, sampleRec 3, sampleRec 4] _
    (by with_unfolding_all decide)

/-- C3 counterexample: a row whose date string fails to parse is NOT
dropped.  The critical-column `dropna` runs before `pd.to_datetime`
coerces the bad date to `NaT`, and the post-coercion `dropna` only
covers `quantity` and `unit_price`, so the row survives sanitization
with a null date (violating the claimed non-null-date invariant). -/
theorem unparseable_date_retained_cex :
    clean_data [rawBadDate] = [⟨none, "I3", "X", "UNKNOWN", 5, 2, 10⟩] := by
  with_unfolding_all decide

/-- C3 amended: every retained row has `quantity > 0` and
`unit_price > 0`; a row with a null `date`, `medicine_name`, `quantity`
or `unit_price` is dropped, a row whose `quantity` or `unit_price`
fails numeric coercion is dropped, and a row with non-positive
`quantity` or `unit_price` (e.g. `quantity = -5`, `unit_price = 0`) is
dropped — but a non-null date string that fails to parse is coerced to
null and the row is retained. -/
theorem sanitizer_row_policy (r : RawRow) :
    (∀ c, cleanRow r = some c → 0 < c.quantity ∧ 0 < c.unit_price) ∧
    ((r.date.isMissing || r.medicine_name.isNone || r.quantity.isMissing ||
        r.unit_price.isMissing) = true → cleanRow r = none) ∧
    (r.quantity.coerce = none → cleanRow r = none) ∧
    (r.unit_price.coerce = none → cleanRow r = none) ∧
    (∀ q, r.quantity.coerce = some q → q ≤ 0 → cleanRow r = none) ∧
    (∀ p, r.unit_price.coerce = some p → p ≤ 0 → cleanRow r = none) := by
  refine ⟨?_, ?_, ?_, ?_, ?_, ?_⟩
  · intro c hc
    unfold cleanRow at hc
    split at hc
    · simp at hc
    · split at hc
      · split at hc
        · obtain rfl := Option.some.inj hc
          dsimp only
          assumption
        · simp at hc
      · simp at hc
  · intro h
    unfold cleanRow
    rw [if_pos h]
  · intro h
    unfold cleanRow
    split
    · rfl
    · split
      · rename_i heq _
        rw [h] at heq
        simp at heq
      · rfl
  · intro h
    unfold cleanRow
    split
    · rfl
    · split
      · rename_i heq
        rw [h] at heq
        simp at heq
      · rfl
  · intro q hq hle
    unfold cleanRow
    split
    · rfl
    · split
      · rename_i heq _
        rw [hq] at heq
        obtain rfl := Option.some.inj heq
        rw [if_neg]
        rintro ⟨h1, _⟩
        omega
      · rfl
  · intro p hp hle
    unfold cleanRow
    split
    · rfl
    · split
      · rename_i heq
        rw [hp] at heq
        obtain rfl := Option.some.inj heq
        rw [if_neg]
        rintro ⟨_, h2⟩
        exact absurd (lt_of_lt_of_le h2 hle) (lt_irrefl 0)
      · rfl

/-- C3 amended witness: the spec's two mandatory drops hold concretely:
`quantity = -5` is dropped, and `unit_price = 0` is dropped. -/
theorem sanitizer_row_policy_witness :
    cleanRow rawNegQty = none ∧ cleanRow rawZeroPrice = none :=
  ⟨(sanitizer_row_policy rawNegQty).2.2.2.2.1 (-5) (by with_unfolding_all decide)
      (by norm_num),
    (sanitizer_row_policy rawZeroPrice).2.2.2.2.2 0 (by with_unfolding_all decide)
      (by norm_num)⟩

/-- Unfolding of the recommendation pipeline on a season with data. -/
theorem get_heuristic_eq (df : List FeatRow) (target : Season) (buffer : ℚ)
    (hne : df.filter (·.season = target) ≠ []) :
    get_heuristic_recommendations df target buffer =
      markFastMovers (assignRanks buffer (daysInSeason (df.filter (·.season = target))) 1
        (sortBySales (aggregate_by_medicine (df.filter (·.season = target))))) := by
  unfold get_heuristic_recommendations
  rw [if_neg (by simpa [List.isEmpty_iff] using hne)]

/-- Unfolding of the recommendation pipeline on an empty season. -/
theorem get_heuristic_empty (df : List FeatRow) (target : Season) (buffer : ℚ)
    (hemp : df.filter (·.season = target) = []) :
    get_heuristic_recommendations df target buffer = [] := by
  unfold get_heuristic_recommendations
  rw [if_pos (by simpa [List.isEmpty_iff] using hemp)]

/-- Every row of `assignRanks` carries the per-aggregate columns of some
input aggregate. -/
theorem mem_assignRanks {buffer : ℚ} {days : Option ℕ} {r : Recommendation} :
    ∀ {i : ℕ} {l : List Aggregate}, r ∈ assignRanks buffer days i l →
      ∃ a ∈ l, r.medicine_name = a.medicine_name ∧
        r.last_season_sales = a.total_quantity ∧
        r.suggested_stock_quantity = suggestedStock a.total_quantity buffer ∧
        r.daily_avg_sales = days.map fun d => round2 ((a.total_quantity : ℚ) / d) := by
  intro i l h
  induction l generalizing i with
  | nil => simp [assignRanks] at h
  | cons a as ih =>
    rw [assignRanks] at h
    rcases List.mem_cons.mp h with h1 | h2
    · subst h1
      exact ⟨a, List.mem_cons_self a as, rfl, rfl, rfl, rfl⟩
    · obtain ⟨a', ha', hprops⟩ := ih h2
      exact ⟨a', List.mem_cons_of_mem a ha', hprops⟩

/-- Every row of `markFastMovers` is an input row with only the
`is_fast_mover` column rewritten. -/
theorem mem_markFastMovers {r : Recommendation} {recs : List Recommendation}
    (h : r ∈ markFastMovers recs) :
    ∃ r' ∈ recs,
      r = { r' with
        is_fast_mover := fastMoverFlag (fastMoverThreshold recs) r'.daily_avg_sales } := by
  unfold markFastMovers at h
  obtain ⟨r', hr', hre⟩ := List.mem_map.mp h
  exact ⟨r', hr', hre.symm⟩

/-- Aggregated quantities are sums of row quantities, hence nonnegative
over nonnegative rows. -/
theorem aggregate_total_quantity_nonneg {rows : List FeatRow}
    (hq : ∀ x ∈ rows, 0 ≤ x.quantity)
    {a : Aggregate} (ha : a ∈ aggregate_by_medicine rows) : 0 ≤ a.total_quantity := by
  unfold aggregate_by_medicine at ha
  obtain ⟨k, _, rfl⟩ := List.mem_map.mp ha
  unfold aggregateFor
  dsimp only
  apply List.sum_nonneg
  intro x hx
  obtain ⟨row, hrow, rfl⟩ := List.mem_map.mp hx
  exact hq row (List.mem_filter.mp hrow).1

/-- On nonnegative sales and buffer, the truncation is the floor. -/
theorem suggestedStock_eq_floor {s : ℤ} {b : ℚ} (hs : 0 ≤ s) (hb : 0 ≤ b) :
    suggestedStock s b = ⌊(s : ℚ) * (1 + b)⌋ := by
  unfold suggestedStock ratTrunc
  rw [if_pos]
  apply mul_nonneg
  · exact_mod_cast hs
  · linarith

/-- The buffered suggestion never falls below last season's sales. -/
theorem le_suggestedStock {s : ℤ} {b : ℚ} (hs : 0 ≤ s) (hb : 0 ≤ b) :
    s ≤ suggestedStock s b := by
  rw [suggestedStock_eq_floor hs hb, Int.le_floor]
  have h1 : (s : ℚ) * 1 ≤ (s : ℚ) * (1 + b) :=
    mul_le_mul_of_nonneg_left (by linarith) (by exact_mod_cast hs)
  simpa using h1

/-- C4: every produced recommendation satisfies
`suggested_stock_quantity = floor(last_season_sales * (1 + buffer))`,
and for a nonnegative buffer the suggestion is at least last season's
sales.  (Quantities are nonnegative, as guaranteed for sanitized
transactions.) -/
theorem suggested_stock_formula (df : List FeatRow) (target : Season) (buffer : ℚ)
    (rec : Recommendation)
    (hq : ∀ x ∈ df, 0 ≤ x.quantity) (hb : 0 ≤ buffer)
    (hrec : rec ∈ get_heuristic_recommendations df target buffer) :
    rec.suggested_stock_quantity = ⌊(rec.last_season_sales : ℚ) * (1 + buffer)⌋ ∧
    rec.last_season_sales ≤ rec.suggested_stock_quantity := by
  by_cases hne : df.filter (·.season = target) = []
  · rw [get_heuristic_empty df target buffer hne] at hrec
    simp at hrec
  · rw [get_heuristic_eq df target buffer hne] at hrec
    obtain ⟨r', hr', rfl⟩ := mem_markFastMovers hrec
    obtain ⟨a, ha, _, hsales, hsugg, _⟩ := mem_assignRanks hr'
    have ha' : a ∈ aggregate_by_medicine (df.filter (·.season = target)) :=
      (List.perm_insertionSort salesDesc _).mem_iff.mp ha
    have hs : 0 ≤ a.total_quantity :=
      aggregate_total_quantity_nonneg (fun x hx => hq x (List.mem_filter.mp hx).1) ha'
    constructor
    · dsimp only
      rw [hsugg, hsales, suggestedStock_eq_floor hs hb]
    · dsimp only
      rw [hsugg, hsales]
      exact le_suggestedStock hs hb

/-- C4 witness: the spec's worked example.  30 units last Summer with
the default 15% buffer suggest `floor(30 * 1.15) = 34 ≥ 30`. -/
theorem suggested_stock_formula_witness :
    recPara.suggested_stock_quantity =
      ⌊(recPara.last_season_sales : ℚ) * (1 + DEFAULT_BUFFER)⌋ ∧
    recPara.last_season_sales ≤ recPara.suggested_stock_quantity :=
  suggested_stock_formula dfPara .Summer DEFAULT_BUFFER recPara
    (by with_unfolding_all decide) (by with_unfolding_all decide)
    (by with_unfolding_all decide)

/-- Splitting a mapped sum along a Boolean filter. -/
theorem sum_map_filter_split (l : List α) (p : α → Bool) (f : α → ℤ) :
    (l.map f).sum = ((l.filter p).map f).sum + ((l.filter fun x => !p x).map f).sum := by
  induction l with
  | nil => simp
  | cons a t ih =>
    by_cases h : p a <;> simp [List.filter_cons, h, ih] <;> ring

/-- Rows of other groups are untouched by removing one group. -/
theorem filter_key_of_filter_ne (rows : List FeatRow) (k k' : String) (hkk : k' ≠ k) :
    ((rows.filter fun x => !decide (x.medicine_name_clean = k)).filter
        (·.medicine_name_clean = k'))
      = rows.filter (·.medicine_name_clean = k') := by
  induction rows with
  | nil => rfl
  | cons a t ih =>
    by_cases h1 : a.medicine_name_clean = k
    · have h2 : ¬(a.medicine_name_clean = k') := fun hh => hkk (hh.symm.trans h1)
      have h3 : ¬(k = k') := fun he => hkk he.symm
      simp [List.filter_cons, h1, h2, h3, ih]
    · simp [List.filter_cons, h1, ih]

/-- Summing the per-group quantity sums over a duplicate-free covering
key list gives the total quantity: the group-by is a partition. -/
theorem sum_over_groups (keys : List String) (rows : List FeatRow)
    (hnd : keys.Nodup) (hcov : ∀ x ∈ rows, x.medicine_name_clean ∈ keys) :
    (keys.map fun k =>
        ((rows.filter (·.medicine_name_clean = k)).map (·.quantity)).sum).sum
      = (rows.map (·.quantity)).sum := by
  induction keys generalizing rows with
  | nil =>
    have hrows : rows = [] := by
      cases rows with
      | nil => rfl
      | cons x t => exact absurd (hcov x (List.mem_cons_self x t)) (List.not_mem_nil _)
    subst hrows
    simp
  | cons k ks ih =>
    have hsplit := sum_map_filter_split rows
      (fun x => decide (x.medicine_name_clean = k)) (·.quantity)
    rw [List.map_cons, List.sum_cons]
    have hcongr : (ks.map fun k' =>
          ((rows.filter (·.medicine_name_clean = k')).map (·.quantity)).sum)
        = ks.map fun k' =>
            (((rows.filter fun x => !decide (x.medicine_name_clean = k)).filter
              (·.medicine_name_clean = k')).map (·.quantity)).sum := by
      refine List.map_congr_left fun k' hk' => ?_
      have hkk : k' ≠ k := fun he => (List.nodup_cons.mp hnd).1 (he ▸ hk')
      rw [filter_key_of_filter_ne rows k k' hkk]
    rw [hcongr, ih (rows.filter fun x => !decide (x.medicine_name_clean = k))
      (List.nodup_cons.mp hnd).2 ?_]
    · rw [hsplit]
    · intro x hx
      have hxrows : x ∈ rows := (List.mem_filter.mp hx).1
      have hne : ¬(x.medicine_name_clean = k) := by
        have h2 := (List.mem_filter.mp hx).2
        simpa using h2
      rcases List.mem_cons.mp (hcov x hxrows) with h | h
      · exact absurd h hne
      · exact h

/-- C6: aggregation loses no quantity.  For every table and season, the
sum of `total_quantity` over the per-medicine seasonal aggregates equals
the sum of `quantity` over the season's sanitized transactions. -/
theorem season_quantity_conserved (df : List FeatRow) (target : Season) :
    ((aggregate_by_medicine (df.filter (·.season = target))).map (·.total_quantity)).sum
      = ((df.filter (·.season = target)).map (·.quantity)).sum := by
  set rows := df.filter (·.season = target) with hrows
  have hmap : (aggregate_by_medicine rows).map (·.total_quantity)
      = (keysOf rows).map fun k =>
          ((rows.filter (·.medicine_name_clean = k)).map (·.quantity)).sum := by
    unfold aggregate_by_medicine
    rw [List.map_map]
    rfl
  rw [hmap]
  apply sum_over_groups
  · exact (List.perm_insertionSort _ _).symm.nodup (List.nodup_dedup _)
  · intro x hx
    unfold keysOf
    rw [(List.perm_insertionSort _ _).mem_iff]
    exact List.mem_dedup.mpr (List.mem_map_of_mem _ hx)

/-- `assignRanks` emits one recommendation per aggregate. -/
theorem assignRanks_length (buffer : ℚ) (days : Option ℕ) :
    ∀ (i : ℕ) (l : List Aggregate), (assignRanks buffer days i l).length = l.length := by
  intro i l
  induction l generalizing i with
  | nil => rfl
  | cons a as ih =>
    rw [assignRanks]
    simp [ih]

/-- The positional rank column is `range(i, i + len)`. -/
theorem assignRanks_map_rank (buffer : ℚ) (days : Option ℕ) :
    ∀ (i : ℕ) (l : List Aggregate),
      (assignRanks buffer days i l).map (·.rank) = List.range' i l.length := by
  intro i l
  induction l generalizing i with
  | nil => rfl
  | cons a as ih =>
    rw [assignRanks]
    simp only [List.map_cons, List.length_cons, List.range'_succ]
    rw [ih]

/-- Rank assignment preserves the descending-sales ordering. -/
theorem assignRanks_pairwise {buffer : ℚ} {days : Option ℕ} {l : List Aggregate}
    (h : l.Pairwise salesDesc) :
    ∀ i, (assignRanks buffer days i l).Pairwise
      (fun x y => y.last_season_sales ≤ x.last_season_sales) := by
  induction l with
  | nil => intro i; simp [assignRanks]
  | cons a as ih =>
    intro i
    rw [assignRanks, List.pairwise_cons]
    obtain ⟨ha, has⟩ := List.pairwise_cons.mp h
    refine ⟨?_, ih has (i + 1)⟩
    intro y hy
    obtain ⟨a', ha', _, hsales, _, _⟩ := mem_assignRanks hy
    rw [hsales]
    exact ha a' ha'

/-- The fast-mover pass does not touch the rank column. -/
theorem markFastMovers_map_rank (recs : List Recommendation) :
    (markFastMovers recs).map (·.rank) = recs.map (·.rank) := by
  unfold markFastMovers
  rw [List.map_map]
  rfl

/-- The fast-mover pass keeps the table length. -/
theorem markFastMovers_length (recs : List Recommendation) :
    (markFastMovers recs).length = recs.length := by
  simp [markFastMovers]

/-- The fast-mover pass preserves the descending-sales ordering. -/
theorem markFastMovers_pairwise_sales {recs : List Recommendation}
    (h : recs.Pairwise fun x y => y.last_season_sales ≤ x.last_season_sales) :
    (markFastMovers recs).Pairwise
      (fun x y => y.last_season_sales ≤ x.last_season_sales) := by
  unfold markFastMovers
  exact h.map _ (fun a b hab => hab)

/-- C5 counterexample: tie order among equal `last_season_sales` values
is not guaranteed by the program.  `sort_values` with the default
`kind="quicksort"` promises only a permutation sorted descending by the
key (numpy's introsort is not stable), and this contract admits, on the
two tied aggregates emitted A-then-B, the conforming output B-then-A in
which the emission order of the tie is not retained. -/
theorem tie_order_not_guaranteed_cex :
    SortValuesResult [aggTieA, aggTieB] [aggTieB, aggTieA] ∧
    salesDesc aggTieA aggTieB ∧
    ¬ [aggTieA, aggTieB].Sublist [aggTieB, aggTieA] := by
  unfold SortValuesResult
  with_unfolding_all decide

/-- C5 amended: for every produced recommendation set, the `rank` column
is exactly the dense sequence `1..N` in list order (no gaps, no
repeats) and the list is ordered descending by `last_season_sales`; the
engine's sort conforms to the `sort_values` contract (a permutation of
the aggregates, descending by sales).  Tie order among equal sales
values is implementation-defined and not asserted. -/
theorem rank_dense_sorted_desc (df : List FeatRow) (target : Season) (buffer : ℚ) :
    ((get_heuristic_recommendations df target buffer).map (·.rank)
        = List.range' 1 (get_heuristic_recommendations df target buffer).length) ∧
    (get_heuristic_recommendations df target buffer).Pairwise
      (fun x y => y.last_season_sales ≤ x.last_season_sales) ∧
    SortValuesResult (aggregate_by_medicine (df.filter (·.season = target)))
      (sortBySales (aggregate_by_medicine (df.filter (·.season = target)))) := by
  refine ⟨?_, ?_, ?_, ?_⟩
  · by_cases hne : df.filter (·.season = target) = []
    · rw [get_heuristic_empty _ _ _ hne]
      rfl
    · rw [get_heuristic_eq _ _ _ hne, markFastMovers_map_rank, markFastMovers_length,
        assignRanks_map_rank, assignRanks_length]
  · by_cases hne : df.filter (·.season = target) = []
    · rw [get_heuristic_empty _ _ _ hne]
      simp
    · rw [get_heuristic_eq _ _ _ hne]
      exact markFastMovers_pairwise_sales
        (assignRanks_pairwise (List.sorted_insertionSort salesDesc _) 1)
  · exact List.perm_insertionSort salesDesc _
  · exact List.sorted_insertionSort salesDesc _

/-- `getD` inside the list bounds is a member. -/
theorem getD_mem_of_lt {l : List ℚ} {i : ℕ} (h : i < l.length) (d : ℚ) :
    l.getD i d ∈ l := by
  rw [List.getD_eq_getElem?_getD, List.getElem?_eq_getElem h, Option.getD_some]
  exact List.getElem_mem h

/-- Every non-empty list has an element maximizing a rational measure. -/
theorem exists_list_argmax (f : α → ℚ) (l : List α) (h : l ≠ []) :
    ∃ x ∈ l, ∀ y ∈ l, f y ≤ f x := by
  induction l with
  | nil => exact absurd rfl h
  | cons a t ih =>
    cases t with
    | nil =>
      refine ⟨a, List.mem_cons_self a [], ?_⟩
      intro y hy
      rcases List.mem_cons.mp hy with rfl | hy'
      · exact le_refl _
      · exact absurd hy' (List.not_mem_nil _)
    | cons b t' =>
      obtain ⟨x, hx, hmax⟩ := ih (by simp)
      by_cases hc : f x ≤ f a
      · refine ⟨a, List.mem_cons_self a _, ?_⟩
        intro y hy
        rcases List.mem_cons.mp hy with rfl | hy'
        · exact le_refl _
        · exact le_trans (hmax y hy') hc
      · push_neg at hc
        refine ⟨x, List.mem_cons_of_mem a hx, ?_⟩
        intro y hy
        rcases List.mem_cons.mp hy with rfl | hy'
        · exact le_of_lt hc
        · exact hmax y hy'

/-- The linear-interpolation 75th percentile never exceeds an upper
bound of the population. -/
theorem quantile75_le_of_forall_le {xs : List ℚ} {M : ℚ} (hne : xs ≠ [])
    (hub : ∀ y ∈ xs, y ≤ M) : quantile75 xs ≤ M := by
  unfold quantile75
  dsimp only
  have hlen : (List.insertionSort (· ≤ ·) xs).length = xs.length :=
    (List.perm_insertionSort _ _).length_eq
  have hmem : ∀ y ∈ List.insertionSort (· ≤ ·) xs, y ≤ M := fun y hy =>
    hub y ((List.perm_insertionSort _ _).mem_iff.mp hy)
  have hsort : (List.insertionSort (· ≤ ·) xs).Sorted (· ≤ ·) :=
    List.sorted_insertionSort _ _
  have hn : 1 ≤ xs.length := List.length_pos.mpr hne
  set sorted := List.insertionSort (· ≤ ·) xs
  set h : ℚ := (3 / 4) * ((xs.length : ℚ) - 1) with hh
  have hn1 : (1 : ℚ) ≤ (xs.length : ℚ) := by exact_mod_cast hn
  have h0 : 0 ≤ h := by
    apply mul_nonneg (by norm_num)
    linarith
  set i := ⌊h⌋.toNat with hi
  have hile : (i : ℚ) ≤ h := by
    rw [hi, Int.floor_toNat]
    exact Nat.floor_le h0
  have hfrac1 : h - (i : ℚ) ≤ 1 := by
    have h2 : h < (⌊h⌋₊ : ℚ) + 1 := Nat.lt_floor_add_one h
    rw [hi, Int.floor_toNat]
    linarith
  have hfrac0 : 0 ≤ h - (i : ℚ) := by linarith
  have hilt : i < xs.length := by
    have hup : h ≤ (xs.length : ℚ) - 1 := by
      rw [hh]
      nlinarith
    have hiq : (i : ℚ) < (xs.length : ℚ) := by linarith
    exact_mod_cast hiq
  have hloM : sorted.getD i 0 ≤ M := hmem _ (getD_mem_of_lt (hlen ▸ hilt) 0)
  by_cases hi1 : i + 1 < xs.length
  · have hhiM : sorted.getD (i + 1) (sorted.getD i 0) ≤ M :=
      hmem _ (getD_mem_of_lt (hlen ▸ hi1) _)
    have hlohi : sorted.getD i 0 ≤ sorted.getD (i + 1) (sorted.getD i 0) := by
      rw [List.getD_eq_getElem?_getD, List.getElem?_eq_getElem (hlen ▸ hilt), Option.getD_some,
        List.getD_eq_getElem?_getD, List.getElem?_eq_getElem (hlen ▸ hi1), Option.getD_some]
      exact List.pairwise_iff_get.mp hsort ⟨i, hlen ▸ hilt⟩ ⟨i + 1, hlen ▸ hi1⟩
        (by simp)
    have key : (h - (i : ℚ)) * (sorted.getD (i + 1) (sorted.getD i 0) - sorted.getD i 0)
        ≤ 1 * (sorted.getD (i + 1) (sorted.getD i 0) - sorted.getD i 0) :=
      mul_le_mul_of_nonneg_right hfrac1 (sub_nonneg.mpr hlohi)
    linarith
  · have hge : sorted.length ≤ i + 1 := by omega
    rw [List.getD_eq_default _ _ hge]
    have : (h - (i : ℚ)) * (sorted.getD i 0 - sorted.getD i 0) = 0 := by simp
    linarith

/-- Group keys survive into the aggregate table: a non-empty season
yields a non-empty aggregate table. -/
theorem aggregate_by_medicine_ne_nil {rows : List FeatRow} (hne : rows ≠ []) :
    aggregate_by_medicine rows ≠ [] := by
  obtain ⟨x, hx⟩ := List.exists_mem_of_ne_nil _ hne
  have hmem : x.medicine_name_clean ∈ keysOf rows := by
    unfold keysOf
    rw [(List.perm_insertionSort _ _).mem_iff]
    exact List.mem_dedup.mpr (List.mem_map_of_mem _ hx)
  unfold aggregate_by_medicine
  intro hcontra
  rw [List.map_eq_nil_iff] at hcontra
  rw [hcontra] at hmem
  exact List.not_mem_nil _ hmem

/-- C10 counterexample: a non-empty recommendation set with NO fast
mover.  A season whose every retained row has an unparseable (null)
date — reachable through the sanitizer, since such rows survive
cleaning — gives `days_in_season = (NaT - NaT).days = NaN`, so every
`daily_avg_sales` is `NaN`, the 75th-percentile threshold is `NaN`, and
the `>=` comparison is `False` for every row. -/
theorem all_null_dates_no_fast_mover_cex :
    dfNaT.filter (·.season = Season.Winter) ≠ [] ∧
    (get_heuristic_recommendations dfNaT .Winter DEFAULT_BUFFER).length = 1 ∧
    (get_heuristic_recommendations dfNaT .Winter DEFAULT_BUFFER).map (·.is_fast_mover)
      = [false] := by
  with_unfolding_all decide

/-- C10 amended: whenever the season's transactions include at least one
parseable date, `days_in_season` is a number, every `daily_avg_sales`
is a number, and the medicine with the highest daily average is always
flagged as a fast mover (the 75th-percentile linear-interpolation
threshold cannot exceed the maximum of the population and membership is
decided by `>=`) — so at least one recommendation is a fast mover.
When every date of the season is null, `NaN` poisons the daily averages
and no row is flagged. -/
theorem top_seller_fast_mover_amended (df : List FeatRow) (target : Season) (buffer : ℚ)
    (hdate : (df.filter (·.season = target)).filterMap (·.date) ≠ []) :
    ∃ rec ∈ get_heuristic_recommendations df target buffer,
      rec.is_fast_mover = true ∧
      ∀ r ∈ get_heuristic_recommendations df target buffer,
        r.daily_avg_sales.getD 0 ≤ rec.daily_avg_sales.getD 0 := by
  have hne : df.filter (·.season = target) ≠ [] := by
    intro hc
    rw [hc] at hdate
    exact hdate rfl
  obtain ⟨d, hd⟩ : ∃ d, daysInSeason (df.filter (·.season = target)) = some d := by
    unfold daysInSeason
    have hds : ¬((((df.filter (·.season = target)).filterMap (·.date)).map
        (·.days)).isEmpty = true) := by
      simp only [List.isEmpty_iff, List.map_eq_nil_iff]
      exact hdate
    rw [if_neg hds]
    by_cases hz : natMax (((df.filter (·.season = target)).filterMap (·.date)).map (·.days))
        - natMin (((df.filter (·.season = target)).filterMap (·.date)).map (·.days)) = 0
    · rw [if_pos hz]
      exact ⟨90, rfl⟩
    · rw [if_neg hz]
      exact ⟨_, rfl⟩
  rw [get_heuristic_eq df target buffer hne]
  set pre := assignRanks buffer (daysInSeason (df.filter (·.season = target))) 1
    (sortBySales (aggregate_by_medicine (df.filter (·.season = target)))) with hpre
  have haggne : aggregate_by_medicine (df.filter (·.season = target)) ≠ [] :=
    aggregate_by_medicine_ne_nil hne
  have hsortlen : (sortBySales (aggregate_by_medicine (df.filter (·.season = target)))).length
      = (aggregate_by_medicine (df.filter (·.season = target))).length :=
    (List.perm_insertionSort _ _).length_eq
  have hprene : pre ≠ [] := by
    rw [hpre]
    intro hc
    have hlen := congrArg List.length hc
    rw [assignRanks_length, hsortlen] at hlen
    exact haggne (List.length_eq_zero.mp hlen)
  have hsome : ∀ r ∈ pre, ∃ v, r.daily_avg_sales = some v := by
    intro r hr
    obtain ⟨a, _, _, _, _, hdaily⟩ := mem_assignRanks hr
    rw [hdaily, hd]
    exact ⟨_, rfl⟩
  obtain ⟨r₀, hr₀, hmax⟩ := exists_list_argmax (fun r => r.daily_avg_sales.getD 0) pre hprene
  obtain ⟨v₀, hv₀⟩ := hsome r₀ hr₀
  have hv₀' : r₀.daily_avg_sales.getD 0 = v₀ := by
    rw [hv₀]
    rfl
  have hvmem : v₀ ∈ (pre.map (·.daily_avg_sales)).reduceOption := by
    rw [List.reduceOption_mem_iff]
    exact List.mem_map.mpr ⟨r₀, hr₀, hv₀⟩
  have hvne : (pre.map (·.daily_avg_sales)).reduceOption ≠ [] := by
    intro hc
    rw [hc] at hvmem
    exact List.not_mem_nil _ hvmem
  have hub : ∀ y ∈ (pre.map (·.daily_avg_sales)).reduceOption, y ≤ v₀ := by
    intro y hy
    rw [List.reduceOption_mem_iff] at hy
    obtain ⟨r, hr, hry⟩ := List.mem_map.mp hy
    have hle := hmax r hr
    rw [hv₀'] at hle
    rw [hry] at hle
    exact hle
  have hthr : fastMoverThreshold pre =
      some (quantile75 ((pre.map (·.daily_avg_sales)).reduceOption)) := by
    unfold fastMoverThreshold
    rw [if_neg (by simpa [List.isEmpty_iff] using hvne)]
  have hq : quantile75 ((pre.map (·.daily_avg_sales)).reduceOption) ≤ v₀ :=
    quantile75_le_of_forall_le hvne hub
  refine ⟨{ r₀ with
      is_fast_mover := fastMoverFlag (fastMoverThreshold pre) r₀.daily_avg_sales },
    ?_, ?_, ?_⟩
  · unfold markFastMovers
    exact List.mem_map_of_mem _ hr₀
  · dsimp only
    rw [hthr, hv₀]
    unfold fastMoverFlag
    exact decide_eq_true hq
  · intro r hr
    obtain ⟨r', hr', rfl⟩ := mem_markFastMovers hr
    dsimp only
    rw [hv₀']
    have hle := hmax r' hr'
    rw [hv₀'] at hle
    exact hle

/-- C10 amended witness: the worked example's season has parseable
dates, and its single recommendation is itself the top seller and is
flagged as a fast mover. -/
theorem top_seller_fast_mover_witness :
    ∃ rec ∈ get_heuristic_recommendations dfPara .Summer DEFAULT_BUFFER,
      rec.is_fast_mover = true ∧
      ∀ r ∈ get_heuristic_recommendations dfPara .Summer DEFAULT_BUFFER,
        r.daily_avg_sales.getD 0 ≤ rec.daily_avg_sales.getD 0 :=
  top_seller_fast_mover_amended dfPara .Summer DEFAULT_BUFFER (by with_unfolding_all decide)

/-- C9: the two priority-classification algorithms in the codebase are
not equivalent.  On the two-medicine input (AMOXICILLIN: 100 units and
revenue 100; BENADRYL: 10 units and revenue 10), the rank-slicing
algorithm puts BENADRYL in HIGH (second slice of the rank order), while
the continuous revenue-plus-quantity score gives it
`0.1*0.6 + 0.1*0.4 = 0.1 < 0.4`, i.e. LOW. -/
theorem priority_algorithms_diverge :
    (categorize_medicines_by_priority [recC9A, recC9B]).map (fun c => tierOf c "BENADRYL")
        = some (some Priority.HIGH) ∧
    (enhanced_priorities enhC9).lookup "BENADRYL" = some Priority.LOW ∧
    Priority.HIGH ≠ Priority.LOW := by
  with_unfolding_all decide

/-- C7 amended (and C7 counterexample support): the minimum-history gate
of the seasonal-autoregressive model.  In `Engine.py` the gate is exactly
the weekly-series length: 23 weekly observations yield the explicit
insufficient-data outcome with no fit attempted, and 24 or more always
attempt a fit.  In `backend/utils/forecast.py` the same weekly gate holds
(so any series of at most 23 weeks reports a failure independent of the
fit stub), but a fit is only attempted when additionally at least 24
daily input rows are present. -/
theorem sarima_minimum_history_gate
    (fit : SarimaFitFn) (df : List FeatRow) (medicine : String) (weeks : ℕ)
    (hne : df.filter (·.medicine_name_clean = medicine) ≠ [])
    (sfit sfit₂ : SarimaFitFn) (bdf : List SalesRow) (bweeks : ℕ) :
    ((weeklySeriesOfDays ((df.filter (·.medicine_name_clean = medicine)).filterMap
          fun r => r.date.map fun d => (d.days, r.quantity))).length = 23 →
        get_timeseries_forecast_sarima fit df medicine weeks = .insufficientData 23) ∧
    (24 ≤ (weeklySeriesOfDays ((df.filter (·.medicine_name_clean = medicine)).filterMap
          fun r => r.date.map fun d => (d.days, r.quantity))).length →
        get_timeseries_forecast_sarima fit df medicine weeks =
          match fit (weeklySeriesOfDays ((df.filter (·.medicine_name_clean = medicine)).filterMap
              fun r => r.date.map fun d => (d.days, r.quantity))) weeks with
          | .ok f => .fitted f
          | .error e => .fitError e) ∧
    ((weeklySeriesOfDays (bdf.map fun r => (r.day, r.quantity))).length ≤ 23 →
        generate_sarima_forecast true sfit bdf bweeks =
          generate_sarima_forecast true sfit₂ bdf bweeks ∧
        (generate_sarima_forecast true sfit bdf bweeks).success = false) ∧
    (24 ≤ bdf.length →
      24 ≤ (weeklySeriesOfDays (bdf.map fun r => (r.day, r.quantity))).length →
        generate_sarima_forecast true sfit bdf bweeks =
          match sfit (weeklySeriesOfDays (bdf.map fun r => (r.day, r.quantity))) bweeks with
          | .ok f => ⟨true, none, f.predicted_mean, f.lower, f.upper⟩
          | .error e => sarimaFailure ("SARIMA forecast failed: " ++ e)) := by
  have hif : ¬((df.filter (·.medicine_name_clean = medicine)).isEmpty = true) := by
    simpa [List.isEmpty_iff] using hne
  refine ⟨?_, ?_, ?_, ?_⟩
  · intro h23
    unfold get_timeseries_forecast_sarima
    rw [if_neg hif]
    dsimp only
    rw [if_pos (by omega), h23]
  · intro h24
    unfold get_timeseries_forecast_sarima
    rw [if_neg hif]
    dsimp only
    rw [if_neg (by omega)]
  · intro h23
    unfold generate_sarima_forecast
    by_cases hpre : (!true || bdf.isEmpty || decide (bdf.length < 24)) = true
    · rw [if_pos hpre, if_pos hpre]
      exact ⟨rfl, rfl⟩
    · rw [if_neg hpre, if_neg hpre]
      dsimp only
      rw [if_pos (by omega), if_pos (by omega)]
      exact ⟨rfl, rfl⟩
  · intro h24len h24w
    have hne' : bdf ≠ [] := by
      intro hc
      rw [hc] at h24len
      simp at h24len
    have hpre : ¬((!true || bdf.isEmpty || decide (bdf.length < 24)) = true) := by
      simp [List.isEmpty_iff, hne']
      omega
    unfold generate_sarima_forecast
    rw [if_neg hpre]
    dsimp only
    rw [if_neg (by omega)]

/-- C7 counterexample: in the backend implementation, a weekly-resampled
series with 31 observations (at least 24) built from only two daily
rows does NOT attempt a fit: the `len(df) < 24` pre-gate fires and an
insufficient-data failure is returned even though the fit stub would
have succeeded. -/
theorem sparse_series_gate_cex :
    24 ≤ (weeklySeriesOfDays (sparseSales.map fun r => (r.day, r.quantity))).length ∧
    generate_sarima_forecast true fitOk sparseSales 12 =
      sarimaFailure "Insufficient data for SARIMA forecast (minimum 24 weeks required)" := by
  with_unfolding_all decide

/-- C7 witness: 23 weekly observations are gated, 24 attempt (and here
complete) a fit. -/
theorem sarima_gate_witness :
    get_timeseries_forecast_sarima fitOk df23 "X" 12 = .insufficientData 23 ∧
    get_timeseries_forecast_sarima fitOk df24 "X" 12 = .fitted ⟨[1], [0], [2]⟩ := by
  constructor
  · exact (sarima_minimum_history_gate fitOk df23 "X" 12 (by with_unfolding_all decide)
      fitOk fitOk [] 12).1 (by with_unfolding_all decide)
  · have h := (sarima_minimum_history_gate fitOk df24 "X" 12 (by with_unfolding_all decide)
      fitOk fitOk [] 12).2.1 (by with_unfolding_all decide)
    rw [h]
    with_unfolding_all rfl

/-- C8: a raised fitting exception in either forecasting strategy is
caught and converted into a failure result carrying the error message;
the orchestrator still returns a result for both models, and each
model's result is unaffected by the other model's fit behavior. -/
theorem fit_failures_are_caught
    (sfit sfit₂ : SarimaFitFn) (pfit pfit₂ : ProphetFitFn)
    (sales : List (ℕ × ℤ)) (e₁ e₂ : String)
    (hlen : 30 ≤ (prepare_time_series_data sales).length)
    (hwk : 24 ≤ (weeklySeriesOfDays ((prepare_time_series_data sales).map
        fun r => (r.day, r.quantity))).length)
    (hs : sfit (weeklySeriesOfDays ((prepare_time_series_data sales).map
        fun r => (r.day, r.quantity))) 12 = .error e₁)
    (hp : pfit (prepare_time_series_data sales) (3 * 30) = .error e₂) :
    (process_medicine_forecasts true sfit pfit sales).sarima_forecast =
        sarimaFailure ("SARIMA forecast failed: " ++ e₁) ∧
    (process_medicine_forecasts true sfit pfit sales).prophet_forecast =
        prophetFailure ("Prophet forecast failed: " ++ e₂) ∧
    (process_medicine_forecasts true sfit pfit₂ sales).sarima_forecast =
        (process_medicine_forecasts true sfit pfit sales).sarima_forecast ∧
    (process_medicine_forecasts true sfit₂ pfit sales).prophet_forecast =
        (process_medicine_forecasts true sfit pfit sales).prophet_forecast := by
  have hne' : prepare_time_series_data sales ≠ [] := by
    intro hc
    rw [hc] at hlen
    simp at hlen
  have hemp : ¬((prepare_time_series_data sales).isEmpty = true) := by
    simpa [List.isEmpty_iff] using hne'
  have hpre : ¬((!true || (prepare_time_series_data sales).isEmpty ||
      decide ((prepare_time_series_data sales).length < 24)) = true) := by
    simp [List.isEmpty_iff, hne']
    omega
  have hpre30 : ¬((!true || (prepare_time_series_data sales).isEmpty ||
      decide ((prepare_time_series_data sales).length < 30)) = true) := by
    simp [List.isEmpty_iff, hne']
    omega
  unfold process_medicine_forecasts
  simp only [if_neg hemp]
  refine ⟨?_, ?_, ?_, ?_⟩
  · unfold generate_sarima_forecast
    rw [if_neg hpre]
    dsimp only
    rw [if_neg (by omega), hs]
  · unfold generate_prophet_forecast
    rw [if_neg hpre30, hp]
  · trivial
  · trivial

/-- C8 witness: on 30 weekly-spaced daily observations, stubs that raise
in both models produce two independent failure results carrying the
messages. -/
theorem fit_failures_are_caught_witness :
    (process_medicine_forecasts true errSarima errProphet sales30).sarima_forecast =
        sarimaFailure ("SARIMA forecast failed: " ++ "numerical blowup") ∧
    (process_medicine_forecasts true errSarima errProphet sales30).prophet_forecast =
        prophetFailure ("Prophet forecast failed: " ++ "singular matrix") ∧
    (process_medicine_forecasts true errSarima errProphet sales30).sarima_forecast =
        (process_medicine_forecasts true errSarima errProphet sales30).sarima_forecast ∧
    (process_medicine_forecasts true errSarima errProphet sales30).prophet_forecast =
        (process_medicine_forecasts true errSarima errProphet sales30).prophet_forecast :=
  fit_failures_are_caught errSarima errSarima errProphet errProphet sales30
    "numerical blowup" "singular matrix"
    (by with_unfolding_all decide) (by with_unfolding_all decide) rfl rfl

end Medical
